import Mathlib

/- Shallow embedding of the axios-trials retry layer (src/index.ts).
   JS numbers feeding the timeout arithmetic are modelled as integers plus an
   explicit NaN constructor; JS object keys that may be absent or hold the
   value undefined are modelled as Option fields (none = key absent or
   undefined); in-place mutation of the request configuration object is
   modelled by explicit state passing.  Times (Date.now) are integer
   milliseconds supplied as parameters. -/

namespace AxiosTrials

/-- JS number: either NaN or an integer number of milliseconds. -/
inductive JNum where
  | nan : JNum
  | num : Int → JNum
deriving DecidableEq

/-- Subtraction on JS numbers; NaN propagates. -/
def jsub : JNum → JNum → JNum
  | JNum.num x, JNum.num y => JNum.num (x - y)
  | _, _ => JNum.nan

/-- Math.max on JS numbers; NaN propagates. -/
def jmax : JNum → JNum → JNum
  | JNum.num x, JNum.num y => JNum.num (max x y)
  | _, _ => JNum.nan

/-- Values held by the agent fields of a configuration: either a string (the
pathOr fallback used in fixConfig is the empty string) or an opaque agent
handle, distinguished by an id. -/
inductive JVal where
  | str : String → JVal
  | handle : Nat → JVal
deriving DecidableEq

/-- A request body, as a list of bytes. -/
abbrev Data := List Nat

/-- The part of an axios response the classifier looks at. -/
structure Response where
  status : Int
deriving DecidableEq

/-- Contents of the object stored at the namespaced key (namespace =
axios-trials) of a request configuration.  It holds both the mutable retry
state (retryCount, lastRequestTime) and the per-request option overrides
(retries, shouldResetTimeout).  The function-valued per-request overrides
(retryCondition, retryDelay) are not representable in a first-order state
object and are carried only by the caller-level options record below; none of
the verified claims exercises a function-valued per-request override. -/
structure TrialsNS where
  retryCount : Option Nat := none
  lastRequestTime : Option JNum := none
  retries : Option Nat := none
  shouldResetTimeout : Option Bool := none
deriving DecidableEq

/-- An object with no keys set, as created by the expression
config[namespace] ?? \x7b\x7d in getCurrentState. -/
def TrialsNS.empty : TrialsNS := {}

/-- An axios request configuration, restricted to the fields the retry layer
reads or writes.  The trials field is the namespaced axios-trials key. -/
structure Config where
  method : Option String := none
  timeout : Option JNum := none
  agent : Option JVal := none
  httpAgent : Option JVal := none
  httpsAgent : Option JVal := none
  transformRequest : Option (List (Data → Data)) := none
  data : Option Data := none
  trials : Option TrialsNS := none

/-- An axios error as seen by the interceptor: optional code, optional
response, the originating request configuration, and the verdict of the
external isRetryAllowed check (see isRetryAllowed below). -/
structure AxErr where
  code : Option String := none
  response : Option Response := none
  retryAllowed : Bool := true
  config : Option Config := none

/-- The RetryConifg options record (spelling follows the source).  Fields are
Option so that the destructuring defaults of the source (retries = 3,
retryCondition = isNetworkOrIdempotentRequestError, retryDelay = noDelay,
shouldResetTimeout = false) can be applied at the use site, as in the code. -/
structure RetryConifg where
  retries : Option Nat := none
  retryCondition : Option (AxErr → Bool) := none
  retryDelay : Option (Nat → AxErr → Int) := none
  shouldResetTimeout : Option Bool := none

/-- Default agents configured on the axios instance (axios.defaults). -/
structure AxiosDefaults where
  agent : Option JVal := none
  httpAgent : Option JVal := none
  httpsAgent : Option JVal := none

/-- ramda isEmpty on a configuration object: true when the object has no keys.
Our model equates a key that is absent with one set to undefined. -/
def isEmptyConfig (c : Config) : Bool :=
  c.method.isNone && c.timeout.isNone && c.agent.isNone && c.httpAgent.isNone &&
    c.httpsAgent.isNone && c.transformRequest.isNone && c.data.isNone && c.trials.isNone

/-- either(isNil, isEmpty) applied to an optional configuration. -/
def isEitherNilOrEmpty : Option Config → Bool
  | none => true
  | some c => isEmptyConfig c

/-- getRequestOptions: Object.assign(\x7b\x7d, defaultOptions, config[namespace]).
Keys present on the namespaced object win over the defaults, key by key.  The
function-valued keys cannot live on the modelled namespaced object (see
TrialsNS), so they pass through from the defaults. -/
def getRequestOptions (config : Config) (defaultOptions : RetryConifg) : RetryConifg :=
  let ns := config.trials.getD TrialsNS.empty
  { retries := ns.retries <|> defaultOptions.retries
    retryCondition := defaultOptions.retryCondition
    retryDelay := defaultOptions.retryDelay
    shouldResetTimeout := ns.shouldResetTimeout <|> defaultOptions.shouldResetTimeout }

/-- isRetryableError from the source: code is not ECONNABORTED and the
response is absent or has a 5xx status. -/
def isRetryableError (error : AxErr) : Bool :=
  error.code != some ("ECONNABORTED") &&
    (match error.response with
     | none => true
     | some r => decide (500 ≤ r.status) && decide (r.status ≤ 599))

/-- getCurrentState from the source.  In JS the returned state object is the
very object stored back into config[namespace]; here we return the state
together with the updated configuration. -/
def getCurrentState (config : Config) : TrialsNS × Config :=
  let currentState := config.trials.getD TrialsNS.empty
  let currentState := { currentState with retryCount := some (currentState.retryCount.getD 0) }
  (currentState, { config with trials := some currentState })

/-- pathOr with fallback the empty string, as used on the axios defaults in
fixConfig. -/
def safetyPath (v : Option JVal) : JVal := v.getD (JVal.str (""))

/-- when(pathEq([agent], v), omit([agent])): drop the agent key when it equals
the given (always defined) value.  An absent agent key never compares equal,
since ramda equals(undefined, v) is false for the defined fallback values. -/
def whenAgentEqOmit (v : JVal) (c : Config) : Config :=
  if c.agent = some v then { c with agent := none } else c

/-- fixConfig from the source: pipe of three conditional omits of the agent
key, comparing it in turn with axios.defaults.agent, axios.defaults.httpAgent
and axios.defaults.httpsAgent (each read through pathOr with fallback the
empty string).  Note that only the agent key is ever omitted; the httpAgent
and httpsAgent keys of the configuration are never touched. -/
def fixConfig (axios : AxiosDefaults) (config : Config) : Config :=
  whenAgentEqOmit (safetyPath axios.httpsAgent)
    (whenAgentEqOmit (safetyPath axios.httpAgent)
      (whenAgentEqOmit (safetyPath axios.agent) config))

/-- noDelay from the source. -/
def noDelay (_ : Nat) (_ : AxErr) : Int := 0

/-- Modelled from the spec: the source imports isRetryAllowed from
./_internal/isRetryAllowed, a file that is not among the provided sources.
The spec describes it as a generic safety check whose verdict depends only on
the error (it blocks retries on requests that were explicitly cancelled or
disabled for retry), so its boolean verdict is modelled as the retryAllowed
field carried by the error. -/
def isRetryAllowed (error : AxErr) : Bool := error.retryAllowed

/-- Boolean(error.code) in JS: undefined and the empty string are falsy. -/
def jsTruthyCode : Option String → Bool
  | none => false
  | some s => s != ("")

/-- isNetworkError from the source. -/
def isNetworkError (error : AxErr) : Bool :=
  error.response.isNone &&
    jsTruthyCode error.code &&
    error.code != some ("ECONNABORTED") &&
    isRetryAllowed error

/-- SAFE_HTTP_METHODS from the source.  axios lowercases the method of every
dispatched request, so the methods are compared in lowercase. -/
def SAFE_HTTP_METHODS : List String := ["get", "head", "options"]

/-- IDEMPOTENT_HTTP_METHODS from the source. -/
def IDEMPOTENT_HTTP_METHODS : List String := SAFE_HTTP_METHODS ++ ["put", "delete"]

/-- isIdempotentRequestError from the source. -/
def isIdempotentRequestError (error : AxErr) : Bool :=
  match error.config with
  | none => false
  | some c =>
    if isEmptyConfig c then false
    else isRetryableError error && IDEMPOTENT_HTTP_METHODS.contains (c.method.getD (""))

/-- isNetworkOrIdempotentRequestError from the source: either sub-check. -/
def isNetworkOrIdempotentRequestError (error : AxErr) : Bool :=
  isNetworkError error || isIdempotentRequestError error

/-- exponentialDelay from the source.  Math.random() is modelled as the extra
parameter rand, a rational in the interval from 0 inclusive to 1 exclusive;
the arithmetic is exact rational arithmetic. -/
def exponentialDelay (retryNumber : Nat) (_ : AxErr) (rand : ℚ) : ℚ :=
  let delay : ℚ := 2 ^ retryNumber * 100
  let randomSum := delay * 0.2 * rand
  delay + randomSum

/-- numberExists from the source: allPass of not-nil, not-NaN and not-zero. -/
def numberExists : Option JNum → Bool
  | none => false
  | some JNum.nan => false
  | some (JNum.num x) => x != 0

/-- Outcome of one run of the response-error interceptor: either the error is
propagated (Promise.reject) or a re-dispatch of the given configuration is
scheduled after the given delay. -/
inductive Outcome where
  | reject : AxErr → Outcome
  | retry : Int → Config → Outcome

/-- Result of one run of the response-error interceptor: the outcome, plus the
originating request configuration as it stands after the run (the JS code
mutates it in place through the state object returned by getCurrentState). -/
structure ErrResult where
  outcome : Outcome
  cfgAfter : Option Config

/-- ramda mergeAll([a, b]) restricted to two configurations: keys present on b
win over keys of a; a key absent from b is taken from a.  In particular a key
omitted by fixConfig but present on the original configuration reappears in
the merge. -/
def mergeConfigs (a b : Config) : Config :=
  { method := b.method <|> a.method
    timeout := b.timeout <|> a.timeout
    agent := b.agent <|> a.agent
    httpAgent := b.httpAgent <|> a.httpAgent
    httpsAgent := b.httpsAgent <|> a.httpsAgent
    transformRequest := b.transformRequest <|> a.transformRequest
    data := b.data <|> a.data
    trials := b.trials <|> a.trials }

/-- Lines 182 to 196 of the source: build the configuration handed to the
scheduled re-dispatch.  mergeAll([config, fixConfig(axios, config)]) merges
the two objects with keys of the second winning; then, under the guard of
line 190, the timeout is rewritten.  The expression of line 193 is
Math.max(fixedConfig.timeout ?? 1 - lastRequestDuration - delay, 1): in JS the
nullish-coalescing operator binds looser than subtraction, so the whole
subtraction 1 - lastRequestDuration - delay is the right operand of ?? and is
used only when the timeout is nullish.  Finally transformRequest is replaced
by a single identity transform. -/
def buildRetryConfig (axios : AxiosDefaults) (shouldResetTimeout : Bool) (now : Int)
    (delay : Int) (config2 : Config) (lastReq : Option JNum) : Config :=
  let fixed := mergeConfigs config2 (fixConfig axios config2)
  let fixed :=
    if !shouldResetTimeout && numberExists fixed.timeout && numberExists lastReq then
      let lastRequestDuration := jsub (JNum.num now) (lastReq.getD JNum.nan)
      { fixed with
        timeout := some (jmax
          (fixed.timeout.getD (jsub (jsub (JNum.num 1) lastRequestDuration) (JNum.num delay)))
          (JNum.num 1)) }
    else fixed
  { fixed with transformRequest := some [fun d => d] }

/-- Request interceptor installed by axiosTrials: load or create the retry
state and stamp lastRequestTime with the current time.  In JS the state object
is aliased into the configuration, so the stamp lands in the configuration. -/
def requestInterceptor (now : Int) (config : Config) : Config :=
  let stateAndCfg := getCurrentState config
  let currentState := { stateAndCfg.1 with lastRequestTime := some (JNum.num now) }
  { stateAndCfg.2 with trials := some currentState }

/-- Response-error interceptor installed by axiosTrials (lines 159 to 202 of
the source), as a function of the axios defaults, the caller options, the
current time and the error. -/
def onError (axios : AxiosDefaults) (opts : RetryConifg) (now : Int) (error : AxErr) :
    ErrResult :=
  match error.config with
  | none => { outcome := Outcome.reject error, cfgAfter := none }
  | some config0 =>
    if isEmptyConfig config0 then
      { outcome := Outcome.reject error, cfgAfter := some config0 }
    else
      let merged := getRequestOptions config0 opts
      let retries := merged.retries.getD 3
      let retryCondition := merged.retryCondition.getD isNetworkOrIdempotentRequestError
      let retryDelay := merged.retryDelay.getD noDelay
      let shouldResetTimeout := merged.shouldResetTimeout.getD false
      let stateAndCfg := getCurrentState config0
      let currentState := stateAndCfg.1
      let config1 := stateAndCfg.2
      if retryCondition error && decide (currentState.retryCount.getD 0 < retries) then
        let newCount := currentState.retryCount.getD 0 + 1
        let currentState2 := { currentState with retryCount := some newCount }
        let config2 := { config1 with trials := some currentState2 }
        let delay := retryDelay newCount error
        { outcome := Outcome.retry delay
            (buildRetryConfig axios shouldResetTimeout now delay config2
              currentState2.lastRequestTime)
          cfgAfter := some config2 }
      else
        { outcome := Outcome.reject error, cfgAfter := some config1 }

/-- Shape of the failure the transport produces on a dispatch: the code,
response and safety-check verdict; the config field is the dispatched
configuration. -/
structure ErrShape where
  code : Option String := none
  response : Option Response := none
  retryAllowed : Bool := true

/-- Error produced by a failed dispatch of the given configuration. -/
def mkErr (sh : ErrShape) (c : Config) : AxErr :=
  { code := sh.code, response := sh.response, retryAllowed := sh.retryAllowed,
    config := some c }

/-- One full failed attempt: the request interceptor stamps the configuration
at time t1, the transport fails with an error of shape sh carrying that
configuration, and the response-error interceptor runs at time t2. -/
def failedAttempt (axios : AxiosDefaults) (opts : RetryConifg) (sh : ErrShape)
    (t1 t2 : Int) (c : Config) : ErrResult :=
  onError axios opts t2 (mkErr sh (requestInterceptor t1 c))

/-- Number of re-dispatches before a failure propagates, when every dispatch
fails with shape sh; fuel bounds the recursion. -/
def retriesBeforeReject (axios : AxiosDefaults) (opts : RetryConifg) (sh : ErrShape)
    (t1 t2 : Int) : Nat → Config → Nat
  | 0, _ => 0
  | fuel + 1, c =>
    match (failedAttempt axios opts sh t1 t2 c).outcome with
    | Outcome.reject _ => 0
    | Outcome.retry _ cfg => retriesBeforeReject axios opts sh t1 t2 fuel cfg + 1

/-- Retry counter currently recorded on a configuration (0 when the state or
the counter is absent, matching the defaulting of getCurrentState). -/
def currentRetryCount (c : Config) : Nat :=
  ((c.trials.getD TrialsNS.empty).retryCount).getD 0

/-- Effective maximal number of retries for a configuration under the given
caller options, after the merge and the destructuring default of 3. -/
def effRetries (c : Config) (opts : RetryConifg) : Nat :=
  ((getRequestOptions c opts).retries).getD 3

/-- Effective retry condition: the caller-supplied one, or the default
classifier. -/
def effCondition (opts : RetryConifg) : AxErr → Bool :=
  opts.retryCondition.getD isNetworkOrIdempotentRequestError

/-- Timeout of the configuration scheduled for re-dispatch, if any. -/
def retriedTimeout : Outcome → Option JNum
  | Outcome.retry _ cfg => cfg.timeout
  | Outcome.reject _ => none

/-- Agent field of the configuration scheduled for re-dispatch, if any. -/
def retriedAgent : Outcome → Option JVal
  | Outcome.retry _ cfg => cfg.agent
  | Outcome.reject _ => none

/-- Application of a transformRequest pipeline to a body, as the transport
does before putting the body on the wire. -/
def applyTransforms (ts : List (Data → Data)) (d : Data) : Data :=
  ts.foldl (fun acc t => t acc) d

/-- Configuration scheduled for re-dispatch, if any. -/
def retriedCfg : Outcome → Option Config
  | Outcome.retry _ cfg => some cfg
  | Outcome.reject _ => none

/-- Effective delay function: the caller-supplied one, or noDelay. -/
def effDelay (opts : RetryConifg) : Nat → AxErr → Int :=
  opts.retryDelay.getD noDelay

/-- State object after the increment of line 177: the defaulted state with the
counter bumped by one. -/
def bumpedState (c : Config) : TrialsNS :=
  { c.trials.getD TrialsNS.empty with retryCount := some (currentRetryCount c + 1) }

/-- Originating configuration after the increment of line 177. -/
def bumpedConfig (c : Config) : Config :=
  { c with trials := some (bumpedState c) }

/-- Configuration scheduled for re-dispatch when the error carried
configuration c and the retry is taken. -/
def retryTarget (axios : AxiosDefaults) (opts : RetryConifg) (now : Int) (e : AxErr)
    (c : Config) : Config :=
  buildRetryConfig axios ((getRequestOptions c opts).shouldResetTimeout.getD false) now
    (effDelay opts (currentRetryCount c + 1) e) (bumpedConfig c)
    ((c.trials.getD TrialsNS.empty).lastRequestTime)

lemma orElse_self (o : Option α) : (o <|> o) = o := by cases o <;> rfl

lemma getCurrentState_fst (c : Config) :
    (getCurrentState c).1 =
      { c.trials.getD TrialsNS.empty with retryCount := some (currentRetryCount c) } := rfl

lemma getCurrentState_snd (c : Config) :
    (getCurrentState c).2 = { c with trials := some (getCurrentState c).1 } := rfl

lemma requestInterceptor_trials (now : Int) (c : Config) :
    (requestInterceptor now c).trials =
      some { c.trials.getD TrialsNS.empty with
             retryCount := some (currentRetryCount c),
             lastRequestTime := some (JNum.num now) } := rfl

lemma currentRetryCount_requestInterceptor (now : Int) (c : Config) :
    currentRetryCount (requestInterceptor now c) = currentRetryCount c := rfl

lemma isEmptyConfig_of_trials (c : Config) (t : TrialsNS) (h : c.trials = some t) :
    isEmptyConfig c = false := by
  simp [isEmptyConfig, h]

lemma whenAgentEqOmit_trials (v : JVal) (c : Config) :
    (whenAgentEqOmit v c).trials = c.trials := by
  unfold whenAgentEqOmit; split <;> rfl

lemma fixConfig_trials (a : AxiosDefaults) (c : Config) :
    (fixConfig a c).trials = c.trials := by
  simp [fixConfig, whenAgentEqOmit_trials]

lemma mergeConfigs_trials (a b : Config) :
    (mergeConfigs a b).trials = (b.trials <|> a.trials) := rfl

lemma buildRetryConfig_transformRequest (a : AxiosDefaults) (srt : Bool) (now delay : Int)
    (c2 : Config) (lr : Option JNum) :
    (buildRetryConfig a srt now delay c2 lr).transformRequest = some [fun d => d] := rfl

lemma buildRetryConfig_trials (a : AxiosDefaults) (srt : Bool) (now delay : Int)
    (c2 : Config) (lr : Option JNum) :
    (buildRetryConfig a srt now delay c2 lr).trials = c2.trials := by
  unfold buildRetryConfig
  dsimp only
  split <;> simp [mergeConfigs_trials, fixConfig_trials, orElse_self]

lemma onError_none (axios : AxiosDefaults) (opts : RetryConifg) (now : Int) (e : AxErr)
    (h : e.config = none) :
    onError axios opts now e = { outcome := Outcome.reject e, cfgAfter := none } := by
  unfold onError; rw [h]

lemma onError_empty (axios : AxiosDefaults) (opts : RetryConifg) (now : Int) (e : AxErr)
    (c : Config) (h : e.config = some c) (he : isEmptyConfig c = true) :
    onError axios opts now e = { outcome := Outcome.reject e, cfgAfter := some c } := by
  unfold onError; rw [h]; simp [he]

lemma onError_some (axios : AxiosDefaults) (opts : RetryConifg) (now : Int) (e : AxErr)
    (c : Config) (h : e.config = some c) (hne : isEmptyConfig c = false) :
    onError axios opts now e =
      if effCondition opts e && decide (currentRetryCount c < effRetries c opts) then
        { outcome := Outcome.retry (effDelay opts (currentRetryCount c + 1) e)
            (retryTarget axios opts now e c)
          cfgAfter := some (bumpedConfig c) }
      else
        { outcome := Outcome.reject e,
          cfgAfter := some { c with trials := some (getCurrentState c).1 } } := by
  have hne' : ¬ (isEmptyConfig c = true) := by simp [hne]
  unfold onError
  rw [h]
  dsimp only
  rw [if_neg hne']
  rfl

lemma onError_retry_inv (axios : AxiosDefaults) (opts : RetryConifg) (now : Int) (e : AxErr)
    (delay : Int) (cfg : Config)
    (h : (onError axios opts now e).outcome = Outcome.retry delay cfg) :
    ∃ c, e.config = some c ∧ isEmptyConfig c = false ∧
      effCondition opts e = true ∧ currentRetryCount c < effRetries c opts ∧
      delay = effDelay opts (currentRetryCount c + 1) e ∧
      cfg = retryTarget axios opts now e c := by
  cases hc : e.config with
  | none =>
    rw [onError_none axios opts now e hc] at h
    exact absurd h (by simp)
  | some c =>
    by_cases hne : isEmptyConfig c = true
    · rw [onError_empty axios opts now e c hc hne] at h
      exact absurd h (by simp)
    · rw [Bool.not_eq_true] at hne
      rw [onError_some axios opts now e c hc hne] at h
      by_cases hcond : (effCondition opts e && decide (currentRetryCount c < effRetries c opts)) = true
      · rw [if_pos hcond] at h
        simp only [Bool.and_eq_true, decide_eq_true_eq] at hcond
        simp only [Outcome.retry.injEq] at h
        exact ⟨c, rfl, hne, hcond.1, hcond.2, h.1.symm, h.2.symm⟩
      · rw [if_neg hcond] at h
        exact absurd h (by simp)

lemma onError_reject_inv (axios : AxiosDefaults) (opts : RetryConifg) (now : Int)
    (e e2 : AxErr) (h : (onError axios opts now e).outcome = Outcome.reject e2) :
    e2 = e := by
  cases hc : e.config with
  | none =>
    rw [onError_none axios opts now e hc] at h
    simpa using h.symm
  | some c =>
    by_cases hne : isEmptyConfig c = true
    · rw [onError_empty axios opts now e c hc hne] at h
      simpa using h.symm
    · rw [Bool.not_eq_true] at hne
      rw [onError_some axios opts now e c hc hne] at h
      by_cases hcond :
          (effCondition opts e && decide (currentRetryCount c < effRetries c opts)) = true
      · rw [if_pos hcond] at h
        exact absurd h (by simp)
      · rw [if_neg hcond] at h
        simpa using h.symm

lemma retryTarget_trials (a : AxiosDefaults) (o : RetryConifg) (n : Int) (e : AxErr)
    (c : Config) : (retryTarget a o n e c).trials = some (bumpedState c) := by
  unfold retryTarget
  rw [buildRetryConfig_trials]
  rfl

lemma currentRetryCount_retryTarget (a : AxiosDefaults) (o : RetryConifg) (n : Int)
    (e : AxErr) (c : Config) :
    currentRetryCount (retryTarget a o n e c) = currentRetryCount c + 1 := by
  unfold currentRetryCount
  rw [retryTarget_trials]
  rfl

lemma retryTarget_retries (a : AxiosDefaults) (o : RetryConifg) (n : Int) (e : AxErr)
    (c : Config) :
    ((retryTarget a o n e c).trials.getD TrialsNS.empty).retries =
      (c.trials.getD TrialsNS.empty).retries := by
  rw [retryTarget_trials]
  rfl

lemma requestInterceptor_retries (t : Int) (c : Config) :
    ((requestInterceptor t c).trials.getD TrialsNS.empty).retries =
      (c.trials.getD TrialsNS.empty).retries := rfl

lemma effRetries_requestInterceptor (t : Int) (c : Config) (opts : RetryConifg) :
    effRetries (requestInterceptor t c) opts = effRetries c opts := rfl

lemma effRetries_of_none (c : Config) (opts : RetryConifg) (N : Nat)
    (hrn : (c.trials.getD TrialsNS.empty).retries = none) (hret : opts.retries = some N) :
    effRetries c opts = N := by
  simp [effRetries, getRequestOptions, hrn, hret]

lemma effCondition_true (opts : RetryConifg)
    (h : opts.retryCondition = some (fun _ => true)) (e : AxErr) :
    effCondition opts e = true := by
  simp [effCondition, h]

lemma currentRetryCount_stateStored (c : Config) :
    currentRetryCount { c with trials := some (getCurrentState c).1 } =
      currentRetryCount c := rfl

/-- Exact run count: with an always-true condition, retries capped at N, no
per-request retries override and counter at N - m, exactly m re-dispatches
happen before a failure propagates (for any sufficient fuel). -/
lemma retriesBeforeReject_exact (axios : AxiosDefaults) (opts : RetryConifg) (sh : ErrShape)
    (t1 t2 : Int) (N : Nat) (hcnd : opts.retryCondition = some (fun _ => true))
    (hret : opts.retries = some N) :
    ∀ (m : Nat) (c : Config) (fuel : Nat),
      (c.trials.getD TrialsNS.empty).retries = none →
      currentRetryCount c = N - m → m ≤ N → m + 1 ≤ fuel →
      retriesBeforeReject axios opts sh t1 t2 fuel c = m := by
  intro m
  induction m with
  | zero =>
    intro c fuel hrn hcnt hmN hfuel
    have hne : isEmptyConfig (requestInterceptor t1 c) = false :=
      isEmptyConfig_of_trials _ _ (requestInterceptor_trials t1 c)
    have hcnt' : currentRetryCount (requestInterceptor t1 c) = N := by
      rw [currentRetryCount_requestInterceptor]
      omega
    have heff : effRetries (requestInterceptor t1 c) opts = N := by
      rw [effRetries_requestInterceptor]
      exact effRetries_of_none c opts N hrn hret
    have hOn := onError_some axios opts t2 (mkErr sh (requestInterceptor t1 c))
      (requestInterceptor t1 c) rfl hne
    rw [if_neg (by rw [hcnt', heff]; simp)] at hOn
    match fuel, hfuel with
    | fuel + 1, _ =>
      simp [retriesBeforeReject, failedAttempt, hOn]
  | succ m ih =>
    intro c fuel hrn hcnt hmN hfuel
    have hne : isEmptyConfig (requestInterceptor t1 c) = false :=
      isEmptyConfig_of_trials _ _ (requestInterceptor_trials t1 c)
    have hcnt' : currentRetryCount (requestInterceptor t1 c) = N - (m + 1) := by
      rw [currentRetryCount_requestInterceptor]
      exact hcnt
    have heff : effRetries (requestInterceptor t1 c) opts = N := by
      rw [effRetries_requestInterceptor]
      exact effRetries_of_none c opts N hrn hret
    have hOn := onError_some axios opts t2 (mkErr sh (requestInterceptor t1 c))
      (requestInterceptor t1 c) rfl hne
    rw [if_pos (by
      rw [hcnt', heff, effCondition_true opts hcnd]
      simp only [Bool.true_and, decide_eq_true_eq]
      omega)] at hOn
    match fuel, hfuel with
    | fuel + 1, hfuel =>
      have step : retriesBeforeReject axios opts sh t1 t2 (fuel + 1) c =
          retriesBeforeReject axios opts sh t1 t2 fuel
            (retryTarget axios opts t2 (mkErr sh (requestInterceptor t1 c))
              (requestInterceptor t1 c)) + 1 := by
        simp [retriesBeforeReject, failedAttempt, hOn]
      rw [step]
      rw [ih (retryTarget axios opts t2 (mkErr sh (requestInterceptor t1 c))
              (requestInterceptor t1 c)) fuel
            (by rw [retryTarget_retries, requestInterceptor_retries]; exact hrn)
            (by rw [currentRetryCount_retryTarget, hcnt']; omega)
            (by omega) (by omega)]

lemma currentRetryCount_bumped (c : Config) :
    currentRetryCount (bumpedConfig c) = currentRetryCount c + 1 := rfl

/-- Failing input for claim C1. -/
def cfgC1 : Config := { timeout := some (JNum.num 100), method := some ("get") }

/-- Failure shape for claim C1: a plain network error. -/
def shC1 : ErrShape := { code := some ("ECONNRESET") }

/-- C1: the claim says the timeout written onto the re-dispatched
configuration equals max(originalTimeout - elapsedSinceLastDispatch - delay, 1).
The code disagrees: on a retry-eligible failure with original timeout 100,
dispatch stamped at t = 1000, failure handled at t = 1050 (elapsed 50) and
delay 0, the re-dispatched timeout is 100, not max(100 - 50 - 0, 1) = 50.  In
the source expression Math.max(fixedConfig.timeout ?? 1 - lastRequestDuration
- delay, 1) the nullish-coalescing operator binds looser than subtraction, so
the subtraction is only the fallback for a nullish timeout, and the guard of
line 190 has already ensured the timeout is not nullish: the budget is never
reduced. -/
theorem c1_timeout_budget_not_reduced :
    retriedTimeout ((failedAttempt {} { retries := some 3 } shC1 1000 1050 cfgC1).outcome) =
      some (JNum.num 100) ∧
    JNum.num 100 ≠
      jmax (jsub (jsub (JNum.num 100) (JNum.num (1050 - 1000))) (JNum.num 0)) (JNum.num 1) :=
  ⟨rfl, by decide⟩

/-- C2: the retry counter never exceeds the effective maxRetries.  Part one:
a retry is taken only when the condition accepts the error and the counter is
strictly below the cap, and then the counter on the re-dispatched
configuration is the old counter plus one, still at most the cap.  Part two:
once the counter equals the cap, the failure is terminal: the original error
is rejected and the stored counter is unchanged.  Part three: with an
always-true condition and cap N, exactly N re-dispatches happen before a
failure propagates. -/
theorem c2_retry_count_invariant (axios : AxiosDefaults) (opts : RetryConifg) (now : Int) :
    (∀ (e : AxErr) (c : Config) (delay : Int) (cfg : Config), e.config = some c →
        (onError axios opts now e).outcome = Outcome.retry delay cfg →
        effCondition opts e = true ∧
        currentRetryCount c < effRetries c opts ∧
        currentRetryCount cfg = currentRetryCount c + 1 ∧
        currentRetryCount cfg ≤ effRetries c opts) ∧
    (∀ (e : AxErr) (c : Config), e.config = some c →
        currentRetryCount c = effRetries c opts →
        (onError axios opts now e).outcome = Outcome.reject e ∧
        ∀ c2, (onError axios opts now e).cfgAfter = some c2 →
          currentRetryCount c2 = currentRetryCount c) ∧
    (∀ (N : Nat) (sh : ErrShape) (t1 t2 : Int) (fuel : Nat) (c0 : Config),
        opts.retryCondition = some (fun _ => true) → opts.retries = some N →
        (c0.trials.getD TrialsNS.empty).retries = none → currentRetryCount c0 = 0 →
        N + 1 ≤ fuel →
        retriesBeforeReject axios opts sh t1 t2 fuel c0 = N) := by
  refine ⟨?_, ?_, ?_⟩
  · intro e c delay cfg hc h
    obtain ⟨c', hc', hne, hcond, hlt, hd, hcfg⟩ := onError_retry_inv axios opts now e delay cfg h
    rw [hc] at hc'
    obtain rfl : c = c' := Option.some.inj hc'
    refine ⟨hcond, hlt, ?_, ?_⟩
    · rw [hcfg, currentRetryCount_retryTarget]
    · rw [hcfg, currentRetryCount_retryTarget]
      omega
  · intro e c hc hcap
    by_cases hne : isEmptyConfig c = true
    · rw [onError_empty axios opts now e c hc hne]
      refine ⟨rfl, ?_⟩
      intro c2 h2
      injection h2 with h3
      rw [← h3]
    · rw [Bool.not_eq_true] at hne
      rw [onError_some axios opts now e c hc hne, if_neg (by rw [hcap]; simp)]
      refine ⟨rfl, ?_⟩
      intro c2 h2
      injection h2 with h3
      rw [← h3, currentRetryCount_stateStored]
  · intro N sh t1 t2 fuel c0 hcnd hret hrn h0 hf
    exact retriesBeforeReject_exact axios opts sh t1 t2 N hcnd hret N c0 fuel hrn
      (by omega) le_rfl (by omega)

/-- Witness for C2: with cap 2 and an always-true condition, a fresh request
whose every dispatch fails is re-dispatched exactly twice. -/
theorem c2_witness :
    retriesBeforeReject {} { retries := some 2, retryCondition := some (fun _ => true) } {}
      5 10 3 { method := some ("get") } = 2 :=
  (c2_retry_count_invariant {} { retries := some 2, retryCondition := some (fun _ => true) }
      0).2.2 2 {} 5 10 3 { method := some ("get") } rfl rfl rfl rfl (by omega)

/-- Axios defaults for claim C3: a configured default agent. -/
def axC3 : AxiosDefaults := { agent := some (JVal.handle 7) }

/-- Failing input for claim C3: the configuration carries exactly the default
agent, which the claim says must be omitted from the re-dispatched
configuration. -/
def cfgC3 : Config := { agent := some (JVal.handle 7), method := some ("get") }

/-- Failure shape for claim C3. -/
def shC3 : ErrShape := { code := some ("ECONNRESET") }

/-- C3: the claim says the configuration actually re-dispatched omits the
agent field when it equals a transport default.  The code computes the
stripped configuration (first conjunct: fixConfig removes the agent) but then
merges it under mergeAll([config, fixConfig(axios, config)]), and a key
absent from the second object is taken from the first, so the re-dispatched
configuration still carries the default-equal agent (second conjunct). -/
theorem c3_agent_strip_lost :
    (fixConfig axC3 (requestInterceptor 10 cfgC3)).agent = none ∧
    retriedAgent ((failedAttempt axC3 {} shC3 10 20 cfgC3).outcome) = some (JVal.handle 7) :=
  ⟨rfl, rfl⟩

/-- C4: an error with a nil or empty originating configuration is rejected
unchanged, for every option record and every classifier, and the
configuration is left untouched: no retry state is created or consulted. -/
theorem c4_no_config_rejects_unchanged (axios : AxiosDefaults) (opts : RetryConifg)
    (now : Int) (e : AxErr) (h : isEitherNilOrEmpty e.config = true) :
    onError axios opts now e = { outcome := Outcome.reject e, cfgAfter := e.config } := by
  cases hc : e.config with
  | none => rw [onError_none axios opts now e hc]
  | some c =>
    have he : isEmptyConfig c = true := by rw [hc] at h; exact h
    rw [onError_empty axios opts now e c hc he]

/-- Witness for C4: a concrete error with no configuration. -/
theorem c4_witness :
    onError {} {} 0 { code := some ("ECONNRESET") } =
      { outcome := Outcome.reject { code := some ("ECONNRESET") }, cfgAfter := none } :=
  c4_no_config_rejects_unchanged {} {} 0 { code := some ("ECONNRESET") } rfl

/-- C5: when the effective maxRetries is 0 every failure is terminal on first
failure, whatever the classifier says; and every terminal path rejects with
exactly the transport error it received, unchanged. -/
theorem c5_zero_retries_and_terminal_forwarding (axios : AxiosDefaults)
    (opts : RetryConifg) (now : Int) (e : AxErr) :
    (∀ c, e.config = some c → effRetries c opts = 0 →
        (onError axios opts now e).outcome = Outcome.reject e) ∧
    (∀ e2, (onError axios opts now e).outcome = Outcome.reject e2 → e2 = e) := by
  constructor
  · intro c hc h0
    by_cases hne : isEmptyConfig c = true
    · rw [onError_empty axios opts now e c hc hne]
    · rw [Bool.not_eq_true] at hne
      rw [onError_some axios opts now e c hc hne, if_neg (by rw [h0]; simp)]
  · intro e2 h
    exact onError_reject_inv axios opts now e e2 h

/-- Concrete error for the C5 witness. -/
def eC5 : AxErr := { code := some ("ECONNRESET"), config := some { method := some ("get") } }

/-- Witness for C5: maxRetries 0 rejects the first failure with the same
error. -/
theorem c5_witness :
    (onError {} { retries := some 0 } 0 eC5).outcome = Outcome.reject eC5 :=
  (c5_zero_retries_and_terminal_forwarding {} { retries := some 0 } 0 eC5).1
    { method := some ("get") } rfl rfl

/-- C6: the network-error sub-check accepts exactly the errors with no
response, a truthy (present, non-empty) code, a code different from
ECONNABORTED and a positive verdict of the generic retry-safety check.  The
code-presence conjunct is Boolean(error.code) of the source, which is how the
code identifies a cancelled request (no code at all). -/
theorem c6_isNetworkError_characterization (e : AxErr) :
    isNetworkError e = true ↔
      (e.response = none ∧ (∃ s, e.code = some s ∧ s ≠ ("")) ∧
        e.code ≠ some ("ECONNABORTED") ∧ isRetryAllowed e = true) := by
  cases hc : e.code with
  | none => simp [isNetworkError, jsTruthyCode, hc]
  | some s =>
    cases hr : e.response with
    | none => simp [isNetworkError, jsTruthyCode, isRetryAllowed, hc, hr, and_assoc]
    | some r => simp [isNetworkError, hc, hr]

/-- C7: the idempotent sub-check accepts exactly the errors whose originating
configuration is present and non-empty, whose code is not ECONNABORTED, whose
response is absent or has a status in the interval from 500 to 599, and whose
method is in the idempotent set; and the combined default predicate accepts
exactly when either sub-check does. -/
theorem c7_idempotent_characterization (e : AxErr) :
    (isIdempotentRequestError e = true ↔
      ∃ c, e.config = some c ∧ isEmptyConfig c = false ∧
        e.code ≠ some ("ECONNABORTED") ∧
        (e.response = none ∨ ∃ r, e.response = some r ∧ 500 ≤ r.status ∧ r.status ≤ 599) ∧
        c.method.getD ("") ∈ (["get", "head", "options", "put", "delete"] : List String)) ∧
    (isNetworkOrIdempotentRequestError e = true ↔
      (isNetworkError e = true ∨ isIdempotentRequestError e = true)) := by
  constructor
  · cases hcf : e.config with
    | none => simp [isIdempotentRequestError, hcf]
    | some c =>
      by_cases hne : isEmptyConfig c = true
      · simp [isIdempotentRequestError, hcf, hne]
      · rw [Bool.not_eq_true] at hne
        cases hr : e.response with
        | none =>
          simp [isIdempotentRequestError, isRetryableError, IDEMPOTENT_HTTP_METHODS,
            SAFE_HTTP_METHODS, hcf, hne, hr, and_assoc]
        | some r =>
          simp [isIdempotentRequestError, isRetryableError, IDEMPOTENT_HTTP_METHODS,
            SAFE_HTTP_METHODS, hcf, hne, hr, and_assoc]
  · simp [isNetworkOrIdempotentRequestError]

/-- C8: exponentialDelay returns base plus jitter where base is 2 to the
attempt number times 100 and the jitter is base times 0.2 times the random
draw; for a draw in the unit interval the result lies in the half-open
interval from base to 1.2 base, and it does not depend on the error
argument. -/
theorem c8_exponentialDelay_bounds (n : Nat) (e e2 : AxErr) (r : ℚ)
    (hn : 1 ≤ n) (h0 : 0 ≤ r) (h1 : r < 1) :
    exponentialDelay n e r = 2 ^ n * 100 + 2 ^ n * 100 * 0.2 * r ∧
    2 ^ n * 100 ≤ exponentialDelay n e r ∧
    exponentialDelay n e r < 2 ^ n * 100 * 1.2 ∧
    exponentialDelay n e r = exponentialDelay n e2 r := by
  have hb : (0 : ℚ) < 2 ^ n * 100 := by positivity
  refine ⟨rfl, ?_, ?_, rfl⟩
  · simp only [exponentialDelay]
    nlinarith [mul_nonneg (mul_nonneg hb.le (show (0 : ℚ) ≤ 0.2 by norm_num)) h0]
  · simp only [exponentialDelay]
    nlinarith [mul_pos (mul_pos hb (show (0 : ℚ) < 0.2 by norm_num)) (sub_pos.mpr h1)]

/-- Concrete error for the C8 witness. -/
def eW : AxErr := {}

/-- Witness for C8 at attempt 1 and random draw one half. -/
theorem c8_witness :
    (1 ≤ 1) ∧ ((0 : ℚ) ≤ 1 / 2) ∧ ((1 / 2 : ℚ) < 1) ∧
      2 ^ 1 * 100 ≤ exponentialDelay 1 eW (1 / 2) :=
  ⟨le_rfl, by norm_num, by norm_num,
    (c8_exponentialDelay_bounds 1 eW eW (1 / 2) le_rfl (by norm_num) (by norm_num)).2.1⟩

/-- C9: every configuration scheduled for re-dispatch carries a
transformRequest pipeline consisting of a single identity transform, so the
transport applies the pipeline to any already-serialized body and gets the
body back unchanged, whatever the options were. -/
theorem c9_transform_identity_on_retry (axios : AxiosDefaults) (opts : RetryConifg)
    (now : Int) (e : AxErr) (delay : Int) (cfg : Config)
    (h : (onError axios opts now e).outcome = Outcome.retry delay cfg) :
    cfg.transformRequest = some [fun d => d] ∧
      ∀ d : Data, applyTransforms (cfg.transformRequest.getD []) d = d := by
  obtain ⟨c, hc, hne, hcond, hlt, hd, hcfg⟩ := onError_retry_inv axios opts now e delay cfg h
  subst hcfg
  exact ⟨rfl, fun d => rfl⟩

/-- Concrete configuration for the C9 witness. -/
def cfgC9 : Config := { method := some ("get"), data := some [1, 2, 3] }

/-- Concrete error for the C9 witness. -/
def eC9 : AxErr := mkErr { code := some ("ECONNRESET") } (requestInterceptor 10 cfgC9)

/-- Configuration the C9 witness sees re-dispatched. -/
def retC9 : Config := (retriedCfg (onError {} {} 20 eC9).outcome).getD {}

/-- Witness for C9 on a concrete retried request. -/
theorem c9_witness : retC9.transformRequest = some [fun d => d] :=
  (c9_transform_identity_on_retry {} {} 20 eC9 0 retC9 rfl).1

/-- C10: the retry state lives at the namespaced field of the configuration
object.  Creation with counter 0 when the field is absent; defaulting of a
missing counter on an existing object, whose other fields (including option
overrides) are preserved; the state object is stored back into the
configuration; the pre-dispatch hook stamps lastRequestTime on that same
object; and after a retry both the re-dispatched configuration and the
original configuration object carry the incremented counter, so a second
logical request reusing either starts from the accumulated counter instead
of 0. -/
theorem c10_namespaced_state_persistence :
    (∀ c : Config, c.trials = none →
        getCurrentState c =
          ({ TrialsNS.empty with retryCount := some 0 },
           { c with trials := some { TrialsNS.empty with retryCount := some 0 } })) ∧
    (∀ (c : Config) (t : TrialsNS), c.trials = some t →
        getCurrentState c =
          ({ t with retryCount := some (t.retryCount.getD 0) },
           { c with trials := some { t with retryCount := some (t.retryCount.getD 0) } })) ∧
    (∀ (now : Int) (c : Config) (t : TrialsNS), c.trials = some t →
        (requestInterceptor now c).trials =
          some { t with retryCount := some (t.retryCount.getD 0),
                        lastRequestTime := some (JNum.num now) }) ∧
    (∀ (axios : AxiosDefaults) (opts : RetryConifg) (now : Int) (e : AxErr)
        (c : Config) (delay : Int) (cfg : Config), e.config = some c →
        (onError axios opts now e).outcome = Outcome.retry delay cfg →
        currentRetryCount cfg = currentRetryCount c + 1 ∧
        (∀ c2, (onError axios opts now e).cfgAfter = some c2 →
            currentRetryCount c2 = currentRetryCount c + 1) ∧
        ∀ t2 : Int, currentRetryCount (requestInterceptor t2 cfg) =
          currentRetryCount c + 1) := by
  refine ⟨?_, ?_, ?_, ?_⟩
  · intro c h
    unfold getCurrentState
    rw [h]
    rfl
  · intro c t h
    unfold getCurrentState
    rw [h]
    rfl
  · intro now c t h
    rw [requestInterceptor_trials]
    simp [currentRetryCount, h]
  · intro axios opts now e c delay cfg hc h
    by_cases hne : isEmptyConfig c = true
    · rw [onError_empty axios opts now e c hc hne] at h
      exact absurd h (by simp)
    · rw [Bool.not_eq_true] at hne
      have hsome := onError_some axios opts now e c hc hne
      by_cases hcond :
          (effCondition opts e && decide (currentRetryCount c < effRetries c opts)) = true
      · rw [if_pos hcond] at hsome
        rw [hsome] at h
        simp only [Outcome.retry.injEq] at h
        obtain ⟨hd, hcfg⟩ := h
        refine ⟨?_, ?_, ?_⟩
        · rw [← hcfg, currentRetryCount_retryTarget]
        · intro c2 h2
          rw [hsome] at h2
          rw [← Option.some.inj h2, currentRetryCount_bumped]
        · intro t2
          rw [currentRetryCount_requestInterceptor, ← hcfg, currentRetryCount_retryTarget]
      · rw [if_neg hcond] at hsome
        rw [hsome] at h
        exact absurd h (by simp)

/-- Witness for C10: on a configuration with no namespaced field, the state
is created with counter 0 and stored back into the configuration. -/
theorem c10_witness :
    getCurrentState {} =
      ({ TrialsNS.empty with retryCount := some 0 },
       ({ trials := some { TrialsNS.empty with retryCount := some 0 } } : Config)) :=
  c10_namespaced_state_persistence.1 {} rfl

end AxiosTrials
